import Mathlib

/-!
# Zurg error handler (`zurg-error-handling.go`)

A shallow embedding of the Caddy middleware `ZurgErrorHandler`: its provisioning
defaults, the classifier `findMatchingVideo`, and the request flow of `ServeHTTP`.

Conventions of the embedding

* Go strings are Lean `String`s (valid UTF-8 text); the three `strings`
  functions the source calls (`ToLower`, `Contains`, `HasPrefix`) are defined on
  the character lists.  `ToLower` treats ASCII as `unicode.ToLower` does and takes
  the Unicode case table for the runes above ASCII as a parameter `caseTable`.
* A Go `map[string]string` is the list of its entries *in the order in which
  `range` visits them*.  Go leaves that order unspecified, so a statement about
  "every traversal order" quantifies over all permutations of the list.
* The real `http.ResponseWriter` is the trace of the calls made on it, with the
  two rules of `net/http` the flow depends on: a `WriteHeader` after the header
  was written is ignored, and a first `WriteHeader` with a code outside
  100..999 panics.
* The recorder is `caddyhttp.NewResponseRecorder(w, nil, nil)` as the source
  builds it: nil buffer, nil `shouldBuffer`, so it records the status and passes
  every call on to the writer `w` it wraps.
* A downstream handler is the sequence of calls it makes on the writer it is
  given, and the error it returns.
* The logger calls are observability only and are left out.
-/

set_option autoImplicit false

/-! ## The `strings` functions used by the source -/

/-- The function `unicode.ToLower` on one rune: up to `MaxASCII` the letters
`A`..`Z` go to `a`..`z` and every other rune stays; above, the rune is looked up
in the Unicode case table `caseTable` (`unicode.To(unicode.LowerCase, r)`). -/
def toLowerRune (caseTable : Char → Char) (c : Char) : Char :=
  if c.toNat ≤ 127 then
    if 65 ≤ c.toNat ∧ c.toNat ≤ 90 then Char.ofNat (c.toNat + 32) else c
  else caseTable c

/-- The function `strings.ToLower`. -/
def ToLower (caseTable : Char → Char) (s : String) : String :=
  ⟨s.data.map (toLowerRune caseTable)⟩

/-- Substring search on character lists: does `sub` occur in `s` as a
contiguous block? -/
def containsChars : List Char → List Char → Bool
  | [], sub => sub.isPrefixOf []
  | c :: s, sub => sub.isPrefixOf (c :: s) || containsChars s sub

/-- The function `strings.Contains(s, substr)`. -/
def Contains (s substr : String) : Bool := containsChars s.data substr.data

/-- The function `strings.HasPrefix(s, pre)`. -/
def HasPrefix (s pre : String) : Bool := pre.data.isPrefixOf s.data

/-! ## Data model -/

/-- A Go `error` value, identified by its message. -/
abbrev GoError := String

/-- The handler configuration `ZurgErrorHandler`.  `ErrorMappings` and `STRMPaths`
are `none` for a nil map / nil slice.  The entries of `ErrorMappings` are listed
in the order in which `range` visits them. -/
structure ZurgErrorHandler where
  VideoPath : String
  ErrorMappings : Option (List (String × String))
  STRMPaths : Option (List String)
  deriving DecidableEq

/-- The part of `*http.Request` the handler reads: `r.URL.Path`. -/
structure Request where
  Path : String
  deriving DecidableEq

/-- One call that a handler makes on the `http.ResponseWriter` `x` it is given:
`x.Header()[key] = values`, `x.WriteHeader(statusCode)`, `x.Write(data)`. -/
inductive WriterOp where
  | HeaderSet (key : String) (values : List String)
  | WriteHeader (statusCode : Nat)
  | Write (data : String)
  deriving DecidableEq

/-- One call received by the real `http.ResponseWriter` `w`: the three calls
of `WriterOp`, and `http.Redirect(w, r, url, code)` (`url` is the argument
handed to `http.Redirect`). -/
inductive WriterCall where
  | HeaderSet (key : String) (values : List String)
  | WriteHeader (statusCode : Nat)
  | Write (data : String)
  | Redirect (url : String) (code : Nat)
  deriving DecidableEq

/-- The real response writer: the calls it has received so far, oldest first
(what has gone out to the client), and the error (if any) that `Write` on it
returns. -/
structure ResponseWriter where
  calls : List WriterCall
  writeErr : Option GoError
  deriving DecidableEq

/-- The recorder `caddyhttp.ResponseRecorder` built with a nil `shouldBuffer`:
the writer `w` it wraps (Go shares it with the caller: after the downstream call
the caller's `w` is this `w`), the recorded status code (0 until one is
written), the buffer handed to the constructor (`none` for nil) and whether a
final status was written through it. -/
structure ResponseRecorder where
  w : ResponseWriter
  statusCode : Nat
  buf : Option String
  wroteHeader : Bool
  deriving DecidableEq

/-- The downstream `caddyhttp.Handler` `next`: for a request, the calls it makes
on the writer it is given, in order, and the error it returns. -/
structure Handler where
  ops : Request → List WriterOp
  err : Request → Option GoError

/-- How a call of `ServeHTTP` ends: it returns (with the real writer in state
`w` and the error `err`), or it panics (with the real writer in state `w`). -/
inductive Outcome where
  | returned (w : ResponseWriter) (err : Option GoError)
  | panicked (w : ResponseWriter)
  deriving DecidableEq

/-- The return statement at which `findMatchingVideo` leaves: inside the loop
with the matching entry, at the fallback rule, or at the final `return ""`. -/
inductive ReturnSite where
  | pattern (pattern videoFile : String)
  | fallback
  | noMatch
  deriving DecidableEq

/-- The string returned at a return site. -/
def ReturnSite.value : ReturnSite → String
  | .pattern _ videoFile => videoFile
  | .fallback => "cannot_unrestrict_file.mp4"
  | .noMatch => ""

/-- The constant `http.StatusInternalServerError`. -/
def StatusInternalServerError : Nat := 500

/-- The constant `http.StatusTemporaryRedirect`. -/
def StatusTemporaryRedirect : Nat := 307

/-- The constant `http.StatusOK`. -/
def StatusOK : Nat := 200

/-! ## The real writer (`net/http`) -/

/-- Is the status code final, that is, not informational (1xx)? -/
def finalStatus (statusCode : Nat) : Bool := decide (statusCode < 100 ∨ 199 < statusCode)

/-- Does the call write the response header?  A `WriteHeader` with a final
status, a `Write` and a redirect do. -/
def WriterCall.writesHeader : WriterCall → Bool
  | .HeaderSet _ _ => false
  | .WriteHeader statusCode => finalStatus statusCode
  | .Write _ => true
  | .Redirect _ _ => true

/-- Assignment `h[key] = values` on a header map. -/
def headerAssign (h : List (String × List String)) (key : String) (values : List String) :
    List (String × List String) :=
  if h.any (fun kv => kv.1 = key) then h.map (fun kv => if kv.1 = key then (key, values) else kv)
  else h ++ [(key, values)]

namespace ResponseWriter

/-- Has the response header been written on this writer? -/
def wroteHeader (w : ResponseWriter) : Bool := w.calls.any WriterCall.writesHeader

/-- The header map `w.Header()`: the result of the header assignments received. -/
def Header (w : ResponseWriter) : List (String × List String) :=
  w.calls.foldl
    (fun h c => match c with
      | .HeaderSet key values => headerAssign h key values
      | _ => h) []

/-- The assignment `w.Header()[key] = values`. -/
def HeaderSet (w : ResponseWriter) (key : String) (values : List String) : ResponseWriter :=
  { w with calls := w.calls ++ [WriterCall.HeaderSet key values] }

/-- The call `w.WriteHeader(statusCode)`: ignored by the writer once the header
is written; otherwise a code outside 100..999 panics (`none`). -/
def WriteHeader (w : ResponseWriter) (statusCode : Nat) : Option ResponseWriter :=
  if w.wroteHeader then some { w with calls := w.calls ++ [WriterCall.WriteHeader statusCode] }
  else if statusCode < 100 ∨ 999 < statusCode then none
  else some { w with calls := w.calls ++ [WriterCall.WriteHeader statusCode] }

/-- The call `w.Write(data)`; its error result is `w.writeErr`. -/
def Write (w : ResponseWriter) (data : String) : ResponseWriter :=
  { w with calls := w.calls ++ [WriterCall.Write data] }

/-- One call of a handler on the real writer. -/
def perform (w : ResponseWriter) : WriterOp → Option ResponseWriter
  | .HeaderSet key values => some (w.HeaderSet key values)
  | .WriteHeader statusCode => w.WriteHeader statusCode
  | .Write data => some (w.Write data)

end ResponseWriter

/-- The function `http.Redirect(w, r, url, code)`. -/
def Redirect (w : ResponseWriter) (url : String) (code : Nat) : ResponseWriter :=
  { w with calls := w.calls ++ [WriterCall.Redirect url code] }

/-- The call `io.Copy(w, bytes.NewReader(data))`: one `Write` of the data, none
when the data is empty; the writer afterwards and the error returned. -/
def ioCopy (w : ResponseWriter) (data : String) : ResponseWriter × Option GoError :=
  if data = "" then (w, none) else (w.Write data, w.writeErr)

/-! ## The recorder (`caddyhttp`), streaming because `shouldBuffer` is nil -/

/-- The constructor `caddyhttp.NewResponseRecorder(w, buf, nil)`. -/
def NewResponseRecorder (w : ResponseWriter) (buf : Option String) : ResponseRecorder :=
  { w := w, statusCode := 0, buf := buf, wroteHeader := false }

namespace ResponseRecorder

/-- The method `rec.Status()`. -/
def Status (rr : ResponseRecorder) : Nat := rr.statusCode

/-- The method `rec.Buffer()`. -/
def Buffer (rr : ResponseRecorder) : Option String := rr.buf

/-- The method `rec.Header()`: the header map of the wrapped writer. -/
def Header (rr : ResponseRecorder) : List (String × List String) := rr.w.Header

/-- The assignment `rec.Header()[key] = values`. -/
def HeaderSet (rr : ResponseRecorder) (key : String) (values : List String) : ResponseRecorder :=
  { rr with w := rr.w.HeaderSet key values }

/-- The method `rec.WriteHeader(statusCode)`: nothing once a final status was
written; otherwise the code is recorded and the call is passed on to the
wrapped writer (`none` when that panics). -/
def WriteHeader (rr : ResponseRecorder) (statusCode : Nat) : Option ResponseRecorder :=
  if rr.wroteHeader then some rr
  else
    match rr.w.WriteHeader statusCode with
    | none => none
    | some w => some { rr with w := w, statusCode := statusCode, wroteHeader := finalStatus statusCode }

/-- The method `rec.Write(data)`: `rec.WriteHeader(http.StatusOK)`, then the
data is passed on to the wrapped writer. -/
def Write (rr : ResponseRecorder) (data : String) : ResponseRecorder :=
  let rr := (rr.WriteHeader StatusOK).getD rr
  { rr with w := rr.w.Write data }

/-- One call of a handler on the recorder. -/
def perform (rr : ResponseRecorder) : WriterOp → Option ResponseRecorder
  | .HeaderSet key values => some (rr.HeaderSet key values)
  | .WriteHeader statusCode => rr.WriteHeader statusCode
  | .Write data => some (rr.Write data)

end ResponseRecorder

/-! ## Downstream handlers -/

/-- The calls of a handler, made one after the other on a writer `x` by
`perform`: the writer afterwards, or (on a panic) the writer at the panic. -/
def runOps {W : Type} (perform : W → WriterOp → Option W) : W → List WriterOp → Except W W
  | x, [] => .ok x
  | x, op :: ops =>
    match perform x op with
    | none => .error x
    | some x' => runOps perform x' ops

/-- The call `next.ServeHTTP(w, r)` on the real writer. -/
def Handler.ServeHTTP (next : Handler) (w : ResponseWriter) (r : Request) : Outcome :=
  match runOps ResponseWriter.perform w (next.ops r) with
  | .ok w' => .returned w' (next.err r)
  | .error w' => .panicked w'

/-! ## Provision -/

/-- The map literal of `Provision`, entries in source order. -/
def defaultErrorMappings : List (String × String) :=
  [ ("all tokens are expired", "token_expired.mp4"),
    ("bytes_limit_reached", "quota_exceeded.mp4"),
    ("invalid_download_code", "expired_link.mp4"),
    ("failed_generation", "generation_failed.mp4"),
    ("traffic_exhausted", "traffic_limit.mp4"),
    ("unrestrict link request failed", "network_error.mp4"),
    ("unreadable body", "server_error.mp4"),
    ("undecodable response", "server_error.mp4"),
    ("timeout", "timeout_error.mp4"),
    ("connection reset by peer", "network_error.mp4"),
    ("EOF", "network_error.mp4"),
    ("broken pipe", "network_error.mp4") ]

namespace ZurgErrorHandler

/-- The method `Provision`: the provisioned handler and the returned error. -/
def Provision (z : ZurgErrorHandler) : ZurgErrorHandler × Option GoError :=
  let z := if z.ErrorMappings.isNone then { z with ErrorMappings := some defaultErrorMappings } else z
  let z := if z.STRMPaths.isNone then { z with STRMPaths := some ["/strm/"] } else z
  let z := if z.VideoPath = "" then { z with VideoPath := "/etc/zurg/zurg.git/error_videos" } else z
  (z, none)

/-! ## findMatchingVideo -/

/-- The `range` loop of `findMatchingVideo` over the entries in visiting order:
the first entry whose lower-cased pattern occurs in `errorBody` (already
lower-cased by the caller), or `none` when the loop runs to its end. -/
def rangeErrorMappings (caseTable : Char → Char) :
    List (String × String) → String → Option (String × String)
  | [], _ => none
  | (pattern, videoFile) :: rest, errorBody =>
    if Contains errorBody (ToLower caseTable pattern) then some (pattern, videoFile)
    else rangeErrorMappings caseTable rest errorBody

/-- The return statement that `findMatchingVideo` reaches on `errorBody`. -/
def findMatchingVideoSite (caseTable : Char → Char) (z : ZurgErrorHandler)
    (errorBody : String) : ReturnSite :=
  let errorBody := ToLower caseTable errorBody
  match rangeErrorMappings caseTable (z.ErrorMappings.getD []) errorBody with
  | some (pattern, videoFile) => .pattern pattern videoFile
  | none =>
    if Contains errorBody "failed to unrestrict link" then .fallback
    else .noMatch

/-- The method `findMatchingVideo`. -/
def findMatchingVideo (caseTable : Char → Char) (z : ZurgErrorHandler)
    (errorBody : String) : String :=
  (findMatchingVideoSite caseTable z errorBody).value

/-! ## ServeHTTP -/

/-- The loop at the head of `ServeHTTP`: is `r.URL.Path` under one of the
configured STRM prefixes? -/
def shouldIntercept (z : ZurgErrorHandler) (r : Request) : Bool :=
  (z.STRMPaths.getD []).any (fun path => HasPrefix r.Path path)

/-- The tail of `ServeHTTP`, "copy the recorded response back to the original
writer": `w.WriteHeader(rec.Status())`, then `w.Header()[k] = v` for each entry
of `rec.Header()`, then the copy of the buffer if it is not nil.  The writer `w`
of the source is the one the recorder wraps. -/
def replay (rec : ResponseRecorder) : Outcome :=
  match rec.w.WriteHeader rec.Status with
  | none => .panicked rec.w
  | some w =>
    let w := rec.Header.foldl (fun w kv => w.HeaderSet kv.1 kv.2) w
    match rec.Buffer with
    | some body => .returned (ioCopy w body).1 (ioCopy w body).2
    | none => .returned w none

/-- The method `ServeHTTP`. -/
def ServeHTTP (caseTable : Char → Char) (z : ZurgErrorHandler) (w : ResponseWriter)
    (r : Request) (next : Handler) : Outcome :=
  if !shouldIntercept z r then
    next.ServeHTTP w r
  else
    match runOps ResponseRecorder.perform (NewResponseRecorder w none) (next.ops r) with
    | .error rec => .panicked rec.w
    | .ok rec =>
      match next.err r with
      | some err => .returned rec.w (some err)
      | none =>
        if rec.Status = StatusInternalServerError then
          match rec.Buffer with
          | none => .panicked rec.w
          | some bodyStr =>
            let videoFile := findMatchingVideo caseTable z bodyStr
            if videoFile ≠ "" then
              let videoURL := z.VideoPath ++ "/" ++ videoFile
              .returned (Redirect rec.w videoURL StatusTemporaryRedirect) none
            else replay rec
        else replay rec

end ZurgErrorHandler

/-! ## Vocabulary of the statements -/

/-- A configured pattern is contained in the body, case-insensitively: the
test of the loop in `findMatchingVideo`. -/
def patternMatches (caseTable : Char → Char) (errorBody pattern : String) : Bool :=
  Contains (ToLower caseTable errorBody) (ToLower caseTable pattern)

/-- The body contains the fallback phrase, case-insensitively. -/
def fallbackMatches (caseTable : Char → Char) (errorBody : String) : Bool :=
  Contains (ToLower caseTable errorBody) "failed to unrestrict link"

/-- The entries of the handler's `ErrorMappings` (none for a nil map). -/
def entries (z : ZurgErrorHandler) : List (String × String) := z.ErrorMappings.getD []

/-- A case table for the examples: every rune above ASCII stays as it is, but
the Kelvin sign U+212A, which goes to `k`.  On ASCII text no case table is
consulted. -/
def exampleCaseTable (c : Char) : Char := if c.toNat = 8490 then 'k' else c

/-! ## Lemmas on the string functions -/

theorem containsChars_iff (s sub : List Char) : containsChars s sub = true ↔ sub <:+: s := by
  induction s with
  | nil =>
    cases sub with
    | nil => simp [containsChars]
    | cons a t => simp [containsChars, List.isPrefixOf]
  | cons c s ih =>
    rw [containsChars, Bool.or_eq_true, ih, List.isPrefixOf_iff_prefix, List.infix_cons_iff]

theorem Contains_iff (s substr : String) : Contains s substr = true ↔ substr.data <:+: s.data :=
  containsChars_iff s.data substr.data

theorem HasPrefix_iff (s pre : String) : HasPrefix s pre = true ↔ pre.data <+: s.data := by
  unfold HasPrefix
  exact List.isPrefixOf_iff_prefix

theorem shouldIntercept_iff (z : ZurgErrorHandler) (r : Request) :
    z.shouldIntercept r = true ↔ ∃ p ∈ z.STRMPaths.getD [], p.data <+: r.Path.data := by
  unfold ZurgErrorHandler.shouldIntercept
  rw [List.any_eq_true]
  constructor
  · rintro ⟨p, hp, h⟩
    exact ⟨p, hp, (HasPrefix_iff _ _).1 h⟩
  · rintro ⟨p, hp, h⟩
    exact ⟨p, hp, (HasPrefix_iff _ _).2 h⟩

/-! ## Lemmas on the range loop -/

theorem rangeErrorMappings_eq_none_iff (caseTable : Char → Char) (l : List (String × String))
    (b : String) :
    ZurgErrorHandler.rangeErrorMappings caseTable l b = none ↔
      ∀ e ∈ l, Contains b (ToLower caseTable e.1) = false := by
  induction l with
  | nil => simp [ZurgErrorHandler.rangeErrorMappings]
  | cons a t ih =>
    obtain ⟨p, v⟩ := a
    by_cases h : Contains b (ToLower caseTable p) = true
    · simp [ZurgErrorHandler.rangeErrorMappings, h]
    · simp [ZurgErrorHandler.rangeErrorMappings, h, ih]

theorem rangeErrorMappings_first (caseTable : Char → Char) (pre post : List (String × String))
    (e : String × String) (b : String)
    (hpre : ∀ q ∈ pre, Contains b (ToLower caseTable q.1) = false)
    (he : Contains b (ToLower caseTable e.1) = true) :
    ZurgErrorHandler.rangeErrorMappings caseTable (pre ++ e :: post) b = some e := by
  induction pre with
  | nil =>
    obtain ⟨p, v⟩ := e
    simp only [List.nil_append, ZurgErrorHandler.rangeErrorMappings]
    simp only at he
    simp [he]
  | cons a t ih =>
    obtain ⟨p, v⟩ := a
    have ha : Contains b (ToLower caseTable p) = false := hpre (p, v) (List.mem_cons_self _ _)
    simp only [List.cons_append, ZurgErrorHandler.rangeErrorMappings, ha]
    exact ih (fun q hq => hpre q (List.mem_cons_of_mem _ hq))

theorem rangeErrorMappings_some (caseTable : Char → Char) (l : List (String × String))
    (b : String) (e : String × String)
    (h : ZurgErrorHandler.rangeErrorMappings caseTable l b = some e) :
    ∃ pre post, l = pre ++ e :: post ∧
      (∀ q ∈ pre, Contains b (ToLower caseTable q.1) = false) ∧
      Contains b (ToLower caseTable e.1) = true := by
  induction l with
  | nil => simp [ZurgErrorHandler.rangeErrorMappings] at h
  | cons a t ih =>
    obtain ⟨p, v⟩ := a
    by_cases hc : Contains b (ToLower caseTable p) = true
    · simp only [ZurgErrorHandler.rangeErrorMappings, hc, if_true, Option.some.injEq] at h
      subst h
      exact ⟨[], t, rfl, by simp, hc⟩
    · have hc2 : Contains b (ToLower caseTable p) = false := by simpa using hc
      simp only [ZurgErrorHandler.rangeErrorMappings, hc2] at h
      obtain ⟨pre, post, hl, hpre, he⟩ := ih h
      refine ⟨(p, v) :: pre, post, by simp [hl], ?_, he⟩
      intro q hq
      rcases List.mem_cons.1 hq with rfl | hq
      · exact hc2
      · exact hpre q hq

theorem rangeErrorMappings_of_exists (caseTable : Char → Char) (l : List (String × String))
    (b : String) (h : ∃ e ∈ l, Contains b (ToLower caseTable e.1) = true) :
    ∃ e, ZurgErrorHandler.rangeErrorMappings caseTable l b = some e := by
  cases hr : ZurgErrorHandler.rangeErrorMappings caseTable l b with
  | some e => exact ⟨e, rfl⟩
  | none =>
    obtain ⟨e, he, hc⟩ := h
    have := (rangeErrorMappings_eq_none_iff caseTable l b).1 hr e he
    rw [this] at hc
    exact absurd hc (by decide)

/-! ## Lemmas on `findMatchingVideo` -/

theorem findMatchingVideoSite_of_first (caseTable : Char → Char) (z : ZurgErrorHandler)
    (body : String) (pre post : List (String × String)) (e : String × String)
    (hz : entries z = pre ++ e :: post)
    (hpre : ∀ q ∈ pre, patternMatches caseTable body q.1 = false)
    (he : patternMatches caseTable body e.1 = true) :
    z.findMatchingVideoSite caseTable body = .pattern e.1 e.2 := by
  unfold entries at hz
  unfold ZurgErrorHandler.findMatchingVideoSite
  simp only [hz]
  rw [rangeErrorMappings_first caseTable pre post e (ToLower caseTable body) hpre he]

theorem findMatchingVideoSite_of_none (caseTable : Char → Char) (z : ZurgErrorHandler)
    (body : String) (h : ∀ e ∈ entries z, patternMatches caseTable body e.1 = false) :
    z.findMatchingVideoSite caseTable body =
      if fallbackMatches caseTable body then .fallback else .noMatch := by
  have hn : ZurgErrorHandler.rangeErrorMappings caseTable (z.ErrorMappings.getD [])
      (ToLower caseTable body) = none :=
    (rangeErrorMappings_eq_none_iff _ _ _).2 h
  unfold ZurgErrorHandler.findMatchingVideoSite
  simp only [hn]
  rfl

theorem exists_first_match (caseTable : Char → Char) (l : List (String × String)) (body : String)
    (h : ∃ e ∈ l, patternMatches caseTable body e.1 = true) :
    ∃ pre e post, l = pre ++ e :: post ∧
      (∀ q ∈ pre, patternMatches caseTable body q.1 = false) ∧
      patternMatches caseTable body e.1 = true := by
  obtain ⟨e, he⟩ := rangeErrorMappings_of_exists caseTable l (ToLower caseTable body) h
  obtain ⟨pre, post, hl, hpre, hm⟩ :=
    rangeErrorMappings_some caseTable l (ToLower caseTable body) e he
  exact ⟨pre, e, post, hl, hpre, hm⟩

theorem findMatchingVideo_of_exists (caseTable : Char → Char) (z : ZurgErrorHandler)
    (body : String) (h : ∃ e ∈ entries z, patternMatches caseTable body e.1 = true) :
    ∃ e ∈ entries z, patternMatches caseTable body e.1 = true ∧
      z.findMatchingVideoSite caseTable body = .pattern e.1 e.2 ∧
      z.findMatchingVideo caseTable body = e.2 := by
  obtain ⟨pre, e, post, hl, hpre, hm⟩ := exists_first_match caseTable (entries z) body h
  have hs := findMatchingVideoSite_of_first caseTable z body pre post e hl hpre hm
  refine ⟨e, ?_, hm, hs, ?_⟩
  · rw [hl]; simp
  · unfold ZurgErrorHandler.findMatchingVideo
    rw [hs]; rfl

theorem not_exists_match (caseTable : Char → Char) (l : List (String × String)) (body : String)
    (h : ¬ ∃ e ∈ l, patternMatches caseTable body e.1 = true) :
    ∀ e ∈ l, patternMatches caseTable body e.1 = false := by
  intro e he
  cases hm : patternMatches caseTable body e.1 with
  | false => rfl
  | true => exact absurd ⟨e, he, hm⟩ h

/-! ## Lemmas on the recorder and on `ServeHTTP` -/

theorem recorder_perform_buf (rr rr' : ResponseRecorder) (op : WriterOp)
    (h : rr.perform op = some rr') : rr'.buf = rr.buf := by
  cases op with
  | HeaderSet key values =>
    simp only [ResponseRecorder.perform, ResponseRecorder.HeaderSet, Option.some.injEq] at h
    rw [← h]
  | WriteHeader statusCode =>
    simp only [ResponseRecorder.perform, ResponseRecorder.WriteHeader] at h
    by_cases hw : rr.wroteHeader = true
    · simp only [hw, if_true, Option.some.injEq] at h
      rw [← h]
    · simp only [hw] at h
      cases hh : rr.w.WriteHeader statusCode with
      | none => simp [hh] at h
      | some w =>
        simp only [hh, Bool.false_eq_true, if_false, Option.some.injEq] at h
        rw [← h]
  | Write data =>
    simp only [ResponseRecorder.perform, ResponseRecorder.Write, Option.some.injEq] at h
    rw [← h]
    simp only [ResponseRecorder.WriteHeader]
    by_cases hw : rr.wroteHeader = true
    · simp [hw]
    · simp only [hw]
      cases hh : rr.w.WriteHeader StatusOK with
      | none => simp
      | some w => simp

theorem runOps_recorder_buf (ops : List WriterOp) (rr rr' : ResponseRecorder)
    (h : runOps ResponseRecorder.perform rr ops = .ok rr') : rr'.buf = rr.buf := by
  induction ops generalizing rr with
  | nil =>
    simp only [runOps, Except.ok.injEq] at h
    rw [h]
  | cons op ops ih =>
    simp only [runOps] at h
    cases hp : rr.perform op with
    | none => simp [hp] at h
    | some rr1 =>
      simp only [hp] at h
      rw [ih rr1 h, recorder_perform_buf rr rr1 op hp]

theorem ServeHTTP_of_not_intercept (caseTable : Char → Char) (z : ZurgErrorHandler)
    (w : ResponseWriter) (r : Request) (next : Handler) (h : z.shouldIntercept r = false) :
    z.ServeHTTP caseTable w r next = next.ServeHTTP w r := by
  simp [ZurgErrorHandler.ServeHTTP, h]

/-- On an intercepted path, when the downstream handler returns an error, that
error is returned and the writer is as the handler's calls, passed on by the
recorder, have left it. -/
theorem ServeHTTP_of_error (caseTable : Char → Char) (z : ZurgErrorHandler)
    (w : ResponseWriter) (r : Request) (next : Handler) (rr : ResponseRecorder) (e : GoError)
    (h : z.shouldIntercept r = true)
    (hrun : runOps ResponseRecorder.perform (NewResponseRecorder w none) (next.ops r) = .ok rr)
    (herr : next.err r = some e) :
    z.ServeHTTP caseTable w r next = .returned rr.w (some e) := by
  simp [ZurgErrorHandler.ServeHTTP, h, hrun, herr]

/-- On an intercepted path, whenever the downstream handler succeeds with
recorded status 500, `ServeHTTP` panics on the nil buffer, whatever the body
and the error mappings are. -/
theorem ServeHTTP_of_500_panics (caseTable : Char → Char) (z : ZurgErrorHandler)
    (w : ResponseWriter) (r : Request) (next : Handler) (rr : ResponseRecorder)
    (h : z.shouldIntercept r = true)
    (hrun : runOps ResponseRecorder.perform (NewResponseRecorder w none) (next.ops r) = .ok rr)
    (herr : next.err r = none)
    (hstatus : rr.Status = 500) :
    z.ServeHTTP caseTable w r next = .panicked rr.w := by
  have hbuf : rr.Buffer = none := by
    unfold ResponseRecorder.Buffer
    rw [runOps_recorder_buf (next.ops r) _ rr hrun]
    rfl
  simp [ZurgErrorHandler.ServeHTTP, h, hrun, herr, hstatus, StatusInternalServerError, hbuf]

/-! ## The classifier: order of matching, fallback, soundness -/

/-- C2, as stated, fails: with the two mappings configured in the order
`timeout`, `EOF`, the map holds both entries and `range` may visit `EOF` first
(the visiting order is a permutation of the configured one); both patterns are
contained in the body, and the video of the pattern configured later is returned. -/
theorem findMatchingVideo_configuration_order_counterexample :
    List.Perm [("EOF", "network_error.mp4"), ("timeout", "timeout_error.mp4")]
        [("timeout", "timeout_error.mp4"), ("EOF", "network_error.mp4")] ∧
      patternMatches exampleCaseTable "timeout: unexpected EOF" "timeout" = true ∧
      patternMatches exampleCaseTable "timeout: unexpected EOF" "EOF" = true ∧
      ZurgErrorHandler.findMatchingVideo exampleCaseTable
        ⟨"", some [("EOF", "network_error.mp4"), ("timeout", "timeout_error.mp4")], none⟩
        "timeout: unexpected EOF" = "network_error.mp4" ∧
      ZurgErrorHandler.findMatchingVideo exampleCaseTable
        ⟨"", some [("EOF", "network_error.mp4"), ("timeout", "timeout_error.mp4")], none⟩
        "timeout: unexpected EOF" ≠ "timeout_error.mp4" := by
  refine ⟨List.Perm.swap _ _ _, by decide, by decide, by decide, by decide⟩

/-- C2 (amended): `findMatchingVideo` is first-match-wins in the order in which
the map is visited: when an entry's pattern is contained in the body
(case-insensitively) and no entry visited before it matches, that entry's video
is returned, whatever entries, matching or not, are visited after it. -/
theorem findMatchingVideo_first_visited_wins (caseTable : Char → Char) (z : ZurgErrorHandler)
    (body : String) (pre post : List (String × String)) (e : String × String)
    (hz : entries z = pre ++ e :: post)
    (hpre : ∀ q ∈ pre, patternMatches caseTable body q.1 = false)
    (he : patternMatches caseTable body e.1 = true) :
    z.findMatchingVideo caseTable body = e.2 := by
  unfold ZurgErrorHandler.findMatchingVideo
  rw [findMatchingVideoSite_of_first caseTable z body pre post e hz hpre he]
  rfl

/-- Witness of C2 (amended): `timeout` is visited after a non-matching entry and
before the matching `EOF`; its video is returned. -/
theorem findMatchingVideo_first_visited_wins_witness :
    patternMatches exampleCaseTable "timeout: unexpected EOF" "EOF" = true ∧
      ZurgErrorHandler.findMatchingVideo exampleCaseTable
        ⟨"", some [("broken pipe", "network_error.mp4"), ("timeout", "timeout_error.mp4"),
          ("EOF", "network_error.mp4")], none⟩
        "timeout: unexpected EOF" = "timeout_error.mp4" :=
  ⟨by decide,
    findMatchingVideo_first_visited_wins exampleCaseTable
      ⟨"", some [("broken pipe", "network_error.mp4"), ("timeout", "timeout_error.mp4"),
        ("EOF", "network_error.mp4")], none⟩
      "timeout: unexpected EOF" [("broken pipe", "network_error.mp4")]
      [("EOF", "network_error.mp4")] ("timeout", "timeout_error.mp4") rfl (by decide) (by decide)⟩

/-- C10: for every visiting order of a map `m` (the handler's entries are a
permutation of `m`), the result of `findMatchingVideo` is the empty string, or
"cannot_unrestrict_file.mp4", or the video of an entry of `m` whose pattern is
contained in the body; if some entry matches and all matching entries map to
the same video `v`, the result is `v`; and if any two matching entries map to
the same video (in particular if at most one matches), two runs with
different visiting orders agree. -/
theorem findMatchingVideo_sound_order_independent (caseTable : Char → Char)
    (m : List (String × String)) (z z' : ZurgErrorHandler) (body : String)
    (hz : (entries z).Perm m) (hz' : (entries z').Perm m) :
    (z.findMatchingVideo caseTable body = "" ∨
        z.findMatchingVideo caseTable body = "cannot_unrestrict_file.mp4" ∨
        ∃ e ∈ m, patternMatches caseTable body e.1 = true ∧
          z.findMatchingVideo caseTable body = e.2) ∧
      (∀ v, (∃ e ∈ m, patternMatches caseTable body e.1 = true) →
        (∀ e ∈ m, patternMatches caseTable body e.1 = true → e.2 = v) →
        z.findMatchingVideo caseTable body = v) ∧
      ((∀ e ∈ m, ∀ e' ∈ m, patternMatches caseTable body e.1 = true →
          patternMatches caseTable body e'.1 = true → e.2 = e'.2) →
        z.findMatchingVideo caseTable body = z'.findMatchingVideo caseTable body) := by
  have key : ∀ y : ZurgErrorHandler, (entries y).Perm m →
      ((∃ e ∈ m, patternMatches caseTable body e.1 = true) →
        ∃ e ∈ m, patternMatches caseTable body e.1 = true ∧
          y.findMatchingVideo caseTable body = e.2) ∧
      ((¬ ∃ e ∈ m, patternMatches caseTable body e.1 = true) →
        y.findMatchingVideo caseTable body =
          (if fallbackMatches caseTable body then ReturnSite.fallback
            else ReturnSite.noMatch).value) := by
    intro y hy
    constructor
    · rintro ⟨e, he, hm⟩
      obtain ⟨e1, he1, hm1, _, hv⟩ :=
        findMatchingVideo_of_exists caseTable y body ⟨e, hy.mem_iff.2 he, hm⟩
      exact ⟨e1, hy.mem_iff.1 he1, hm1, hv⟩
    · intro hno
      have hnone : ∀ e ∈ entries y, patternMatches caseTable body e.1 = false := by
        apply not_exists_match
        rintro ⟨e, he, hm⟩
        exact hno ⟨e, hy.mem_iff.1 he, hm⟩
      unfold ZurgErrorHandler.findMatchingVideo
      rw [findMatchingVideoSite_of_none caseTable y body hnone]
  refine ⟨?_, ?_, ?_⟩
  · by_cases hex : ∃ e ∈ m, patternMatches caseTable body e.1 = true
    · exact Or.inr (Or.inr ((key z hz).1 hex))
    · rw [(key z hz).2 hex]
      by_cases hc : fallbackMatches caseTable body = true
      · right; left; simp [hc, ReturnSite.value]
      · left; simp [hc, ReturnSite.value]
  · intro v hex hall
    obtain ⟨e, he, hm, hv⟩ := (key z hz).1 hex
    rw [hv]
    exact hall e he hm
  · intro hsame
    by_cases hex : ∃ e ∈ m, patternMatches caseTable body e.1 = true
    · obtain ⟨e, he, hm, hv⟩ := (key z hz).1 hex
      obtain ⟨e', he', hm', hv'⟩ := (key z' hz').1 hex
      rw [hv, hv']
      exact hsame e he e' he' hm hm'
    · rw [(key z hz).2 hex, (key z' hz').2 hex]

/-- Witness of C10: the default table visited in source order and in reverse
order; on "request timeout" only `timeout` matches and both runs return its video. -/
theorem findMatchingVideo_sound_order_independent_witness :
    ZurgErrorHandler.findMatchingVideo exampleCaseTable ⟨"", some defaultErrorMappings, none⟩
        "request timeout" = "timeout_error.mp4" ∧
      ZurgErrorHandler.findMatchingVideo exampleCaseTable ⟨"", some defaultErrorMappings, none⟩
          "request timeout"
        = ZurgErrorHandler.findMatchingVideo exampleCaseTable
            ⟨"", some defaultErrorMappings.reverse, none⟩ "request timeout" :=
  ⟨(findMatchingVideo_sound_order_independent exampleCaseTable defaultErrorMappings
      ⟨"", some defaultErrorMappings, none⟩ ⟨"", some defaultErrorMappings.reverse, none⟩
      "request timeout" (List.Perm.refl _) (List.reverse_perm _)).2.1
      "timeout_error.mp4" (by decide) (by decide),
    (findMatchingVideo_sound_order_independent exampleCaseTable defaultErrorMappings
      ⟨"", some defaultErrorMappings, none⟩ ⟨"", some defaultErrorMappings.reverse, none⟩
      "request timeout" (List.Perm.refl _) (List.reverse_perm _)).2.2 (by decide)⟩

/-! ## The request flow -/

/-- C1 (the code at the failing input): the path is under the configured prefix,
the downstream handler writes status 500 and a body that contains the configured
pattern `timeout`, and `findMatchingVideo` maps that body to
"timeout_error.mp4"; but the recorder has passed status and body on to the real
writer and holds no buffer, and `ServeHTTP` panics where it reads the buffer:
no redirect is issued and the error body has gone out to the client. -/
theorem serveHTTP_matching_500_panics :
    HasPrefix "/strm/movie.strm" "/strm/" = true ∧
      patternMatches exampleCaseTable "request timeout" "timeout" = true ∧
      ZurgErrorHandler.findMatchingVideo exampleCaseTable
          ⟨"/videos", some [("timeout", "timeout_error.mp4")], some ["/strm/"]⟩
          "request timeout" = "timeout_error.mp4" ∧
      ZurgErrorHandler.ServeHTTP exampleCaseTable
          ⟨"/videos", some [("timeout", "timeout_error.mp4")], some ["/strm/"]⟩
          ⟨[], none⟩ ⟨"/strm/movie.strm"⟩
          ⟨fun _ => [WriterOp.WriteHeader 500, WriterOp.Write "request timeout"], fun _ => none⟩
        = .panicked ⟨[WriterCall.WriteHeader 500, WriterCall.Write "request timeout"], none⟩ := by
  refine ⟨by decide, by decide, by decide, by decide⟩

/-- C4 (the code at the failing input): under the default table the body
"unknown failure XYZ" contains no configured pattern and not the fallback phrase,
and `findMatchingVideo` returns the empty string on it; but on an intercepted
path with downstream status 500 `ServeHTTP` does not reach the classifier or
the replay: it panics where it reads the nil buffer, after the recorder has
passed the status, the header and the body on to the real writer. -/
theorem serveHTTP_unmatched_500_panics :
    (∀ e ∈ defaultErrorMappings,
        patternMatches exampleCaseTable "unknown failure XYZ" e.1 = false) ∧
      fallbackMatches exampleCaseTable "unknown failure XYZ" = false ∧
      ZurgErrorHandler.findMatchingVideo exampleCaseTable
          (ZurgErrorHandler.Provision ⟨"", none, none⟩).1 "unknown failure XYZ" = "" ∧
      ZurgErrorHandler.ServeHTTP exampleCaseTable (ZurgErrorHandler.Provision ⟨"", none, none⟩).1
          ⟨[], none⟩ ⟨"/strm/movie.strm"⟩
          ⟨fun _ => [WriterOp.HeaderSet "Content-Type" ["text/plain"], WriterOp.WriteHeader 500,
              WriterOp.Write "unknown failure XYZ"], fun _ => none⟩
        = .panicked
            ⟨[WriterCall.HeaderSet "Content-Type" ["text/plain"], WriterCall.WriteHeader 500,
              WriterCall.Write "unknown failure XYZ"], none⟩ := by
  refine ⟨by decide, by decide, by decide, by decide⟩

/-- C5: when no configured STRM path is a prefix of the request path (exact,
case-sensitive comparison of the strings), `ServeHTTP` is the call of the next
handler on the real writer: the writer ends in the state the next handler leaves
it in and the outcome is the one of the next handler. -/
theorem serveHTTP_passthrough (caseTable : Char → Char) (z : ZurgErrorHandler)
    (w : ResponseWriter) (r : Request) (next : Handler)
    (hpath : ∀ p ∈ z.STRMPaths.getD [], ¬ p.data <+: r.Path.data) :
    z.ServeHTTP caseTable w r next = next.ServeHTTP w r := by
  apply ServeHTTP_of_not_intercept
  cases h : z.shouldIntercept r with
  | false => rfl
  | true =>
    obtain ⟨p, hp, hpre⟩ := (shouldIntercept_iff z r).1 h
    exact absurd hpre (hpath p hp)

/-- Witness of C5: path `/other/resource` with prefix `/strm/`; the downstream
response has status 500 and a body containing the configured pattern `timeout`;
it reaches the client as the next handler wrote it, with no redirect. -/
theorem serveHTTP_passthrough_witness :
    patternMatches exampleCaseTable "request timeout" "timeout" = true ∧
      ZurgErrorHandler.ServeHTTP exampleCaseTable (ZurgErrorHandler.Provision ⟨"", none, none⟩).1
          ⟨[], none⟩ ⟨"/other/resource"⟩
          ⟨fun _ => [WriterOp.WriteHeader 500, WriterOp.Write "request timeout"], fun _ => none⟩ =
        .returned ⟨[WriterCall.WriteHeader 500, WriterCall.Write "request timeout"], none⟩ none :=
  ⟨by decide,
    serveHTTP_passthrough exampleCaseTable (ZurgErrorHandler.Provision ⟨"", none, none⟩).1
      ⟨[], none⟩ ⟨"/other/resource"⟩
      ⟨fun _ => [WriterOp.WriteHeader 500, WriterOp.Write "request timeout"], fun _ => none⟩
      (by decide)⟩

/-- C6 (the code at the failing input): on an intercepted path, a downstream
handler that returns nil without writing anything leaves the recorded status at
0, which is not 500; the replay calls `WriteHeader(0)` on the real writer and
panics, where the same handler called on the real writer returns normally.
When the handler does write a response (here a 404), the recorder has already
passed it on: the replay adds a second `WriteHeader` and the header map's own
entries and copies no body. -/
theorem serveHTTP_nothing_written_panics :
    ZurgErrorHandler.ServeHTTP exampleCaseTable (ZurgErrorHandler.Provision ⟨"", none, none⟩).1
        ⟨[], none⟩ ⟨"/strm/movie.strm"⟩ ⟨fun _ => [], fun _ => none⟩
      = .panicked ⟨[], none⟩ ∧
    Handler.ServeHTTP ⟨fun _ => [], fun _ => none⟩ ⟨[], none⟩ ⟨"/strm/movie.strm"⟩
      = .returned ⟨[], none⟩ none ∧
    ZurgErrorHandler.ServeHTTP exampleCaseTable (ZurgErrorHandler.Provision ⟨"", none, none⟩).1
        ⟨[], none⟩ ⟨"/strm/movie.strm"⟩
        ⟨fun _ => [WriterOp.HeaderSet "Content-Type" ["text/plain"], WriterOp.WriteHeader 404,
            WriterOp.Write "request timeout"], fun _ => none⟩
      = .returned
          ⟨[WriterCall.HeaderSet "Content-Type" ["text/plain"], WriterCall.WriteHeader 404,
            WriterCall.Write "request timeout", WriterCall.WriteHeader 404,
            WriterCall.HeaderSet "Content-Type" ["text/plain"]], none⟩ none := by
  refine ⟨by decide, by decide, by decide⟩

/-- C7 (the code at the failing input): on an intercepted path, the downstream
handler writes status 500 and a body and then returns an error; `ServeHTTP`
returns that same error and issues no redirect, but the real writer is not
untouched: the recorder has passed the status and the body on to it. -/
theorem serveHTTP_error_after_streaming :
    ZurgErrorHandler.ServeHTTP exampleCaseTable (ZurgErrorHandler.Provision ⟨"", none, none⟩).1
        ⟨[], none⟩ ⟨"/strm/movie.strm"⟩
        ⟨fun _ => [WriterOp.WriteHeader 500, WriterOp.Write "request timeout"],
          fun _ => some "upstream unreachable"⟩
      = .returned ⟨[WriterCall.WriteHeader 500, WriterCall.Write "request timeout"], none⟩
          (some "upstream unreachable") ∧
    ZurgErrorHandler.ServeHTTP exampleCaseTable (ZurgErrorHandler.Provision ⟨"", none, none⟩).1
        ⟨[], none⟩ ⟨"/strm/movie.strm"⟩
        ⟨fun _ => [WriterOp.WriteHeader 500, WriterOp.Write "request timeout"],
          fun _ => some "upstream unreachable"⟩
      ≠ .returned ⟨[], none⟩ (some "upstream unreachable") := by
  refine ⟨by decide, by decide⟩

/-! ## Provisioning -/

/-- C8: `Provision` returns nil; it sets `VideoPath` to
"/etc/zurg/zurg.git/error_videos" when none was supplied (empty string) and
keeps a supplied one; it sets `STRMPaths` to `["/strm/"]` when nil and keeps a
supplied list; it installs the default table when `ErrorMappings` is nil and
keeps a supplied map; the default table has 12 entries with pairwise distinct
patterns; and provisioning twice equals provisioning once. -/
theorem provision_defaults (z : ZurgErrorHandler) :
    z.Provision.2 = none ∧
      z.Provision.1.VideoPath =
        (if z.VideoPath = "" then "/etc/zurg/zurg.git/error_videos" else z.VideoPath) ∧
      z.Provision.1.STRMPaths = some (z.STRMPaths.getD ["/strm/"]) ∧
      z.Provision.1.ErrorMappings = some (z.ErrorMappings.getD defaultErrorMappings) ∧
      defaultErrorMappings.length = 12 ∧
      (defaultErrorMappings.map (fun e => e.1)).Nodup ∧
      z.Provision.1.Provision = z.Provision := by
  obtain ⟨videoPath, mappings, paths⟩ := z
  refine ⟨rfl, ?_, ?_, ?_, by decide, by decide, ?_⟩
  · by_cases hv : videoPath = "" <;> cases mappings <;> cases paths <;>
      simp [ZurgErrorHandler.Provision, hv]
  · by_cases hv : videoPath = "" <;> cases mappings <;> cases paths <;>
      simp [ZurgErrorHandler.Provision, hv]
  · by_cases hv : videoPath = "" <;> cases mappings <;> cases paths <;>
      simp [ZurgErrorHandler.Provision, hv]
  · by_cases hv : videoPath = "" <;> cases mappings <;> cases paths <;>
      simp [ZurgErrorHandler.Provision, hv]

/-! ## The default configuration at work -/

/-- C9 (the code at the failing input): under the configuration that `Provision`
produces on an unconfigured handler, `findMatchingVideo` maps
"Error: all tokens are expired" to "token_expired.mp4" and
"connection RESET by peer" to "network_error.mp4", and exactly one default
pattern matches each body; but a request on a `/strm/` path whose downstream
response is status 500 with either body is not redirected: `ServeHTTP` panics
where it reads the nil buffer, after the recorder has passed the status and the
body on to the real writer. -/
theorem serveHTTP_default_examples_panic :
    ZurgErrorHandler.findMatchingVideo exampleCaseTable
        (ZurgErrorHandler.Provision ⟨"", none, none⟩).1 "Error: all tokens are expired"
      = "token_expired.mp4" ∧
    ZurgErrorHandler.findMatchingVideo exampleCaseTable
        (ZurgErrorHandler.Provision ⟨"", none, none⟩).1 "connection RESET by peer"
      = "network_error.mp4" ∧
    (defaultErrorMappings.filter
      (fun e => patternMatches exampleCaseTable "Error: all tokens are expired" e.1)).length = 1 ∧
    (defaultErrorMappings.filter
      (fun e => patternMatches exampleCaseTable "connection RESET by peer" e.1)).length = 1 ∧
    ZurgErrorHandler.ServeHTTP exampleCaseTable (ZurgErrorHandler.Provision ⟨"", none, none⟩).1
        ⟨[], none⟩ ⟨"/strm/movie.strm"⟩
        ⟨fun _ => [WriterOp.WriteHeader 500, WriterOp.Write "Error: all tokens are expired"],
          fun _ => none⟩
      = .panicked
          ⟨[WriterCall.WriteHeader 500, WriterCall.Write "Error: all tokens are expired"], none⟩ ∧
    ZurgErrorHandler.ServeHTTP exampleCaseTable (ZurgErrorHandler.Provision ⟨"", none, none⟩).1
        ⟨[], none⟩ ⟨"/strm/movie.strm"⟩
        ⟨fun _ => [WriterOp.WriteHeader 500, WriterOp.Write "connection RESET by peer"],
          fun _ => none⟩
      = .panicked
          ⟨[WriterCall.WriteHeader 500, WriterCall.Write "connection RESET by peer"], none⟩ := by
  refine ⟨by decide, by decide, by decide, by decide, by decide, by decide⟩
